import Mathlib

/-!
Verification of the ti2-rezdy connector core against its specification.

The JavaScript source (src/index.js, src/resolvers/availability.js,
src/resolvers/booking.js) is shallowly embedded: JS objects become Lean
structures whose optional/duck-typed fields are `Option`-valued, JS numbers
in the claim-relevant fragment are `Int`, truthiness is made explicit, and
fallible operations return `Except`.  Functions marked as translated name
the source function they embed.
-/

namespace Rezdy

/-- A small model of the JavaScript values that flow through the
seat-count and field-aliasing code paths: finite numbers, NaN, strings,
booleans, null and undefined. -/
inductive JSVal : Type
  | num (n : Int)
  | nan
  | str (s : String)
  | bool (b : Bool)
  | null
  | undef
deriving DecidableEq, Repr

/-- JavaScript truthiness for `JSVal`: 0, NaN, the empty string, false,
null and undefined are falsy; everything else is truthy. -/
def JSVal.truthy : JSVal → Bool
  | .num n => n != 0
  | .nan => false
  | .str s => s != ""
  | .bool b => b
  | .null => false
  | .undef => false

/-- ASCII lowercasing of a string (`String.toLowerCase` in JS), written
over the character list so that it reduces inside the kernel. -/
def lowerStr (s : String) : String := String.mk (s.data.map Char.toLower)

/-- Whitespace for JS `Number` coercion. -/
def isWs (c : Char) : Bool := c = ' ' || c = '\t' || c = '\n' || c = '\r'

/-- Strip leading and trailing whitespace from a character list. -/
def trimChars (cs : List Char) : List Char :=
  ((cs.dropWhile isWs).reverse.dropWhile isWs).reverse

/-- Parse a nonempty all-digit character list as a natural number. -/
def parseDigits : List Char → Option Nat
  | [] => none
  | cs =>
      cs.foldl
        (fun acc c =>
          match acc with
          | none => none
          | some n => if c.isDigit then some (n * 10 + (c.toNat - 48)) else none)
        (some 0)

/-- JS `Number(string)` restricted to the integral fragment the model
uses: the trimmed empty string coerces to 0 and optionally signed decimal
integer strings to their value; everything else is NaN (`none`).
(Fractional, exponential and hexadecimal notations are outside the
fragment the claims exercise.) -/
def jsStringToNumber (s : String) : Option Int :=
  match trimChars s.data with
  | [] => some 0
  | '-' :: rest => (parseDigits rest).map fun n => -(n : Int)
  | '+' :: rest => (parseDigits rest).map fun n => (n : Int)
  | cs => (parseDigits cs).map fun n => (n : Int)

/-- JavaScript numeric coercion `Number(v)` restricted to our value model;
`none` stands for NaN.  Strings are trimmed and parsed as (optionally
signed) decimal integers, the empty string coerces to 0, booleans to 0/1,
null to 0, undefined to NaN. -/
def JSVal.toNumber : JSVal → Option Int
  | .num n => some n
  | .nan => none
  | .str s => jsStringToNumber s
  | .bool b => some (if b then 1 else 0)
  | .null => some 0
  | .undef => none

/-- `field !== undefined` on an optional JS object property: the property
must be present and its value must not be `undefined`. -/
def jsDefined : Option JSVal → Bool
  | some v => v != JSVal.undef
  | none => false

/-- Truthiness of an optional JS string property (absent and the empty
string are falsy). -/
def strTruthy : Option String → Bool
  | some s => s != ""
  | none => false

/-- JS `a || b` on optional string properties. -/
def strOr (a b : Option String) : Option String :=
  if strTruthy a then a else b

/-- Truthiness of an optional JS integer property (absent and 0 are
falsy). -/
def intTruthy : Option Int → Bool
  | some n => n != 0
  | none => false

/-- One Rezdy price option (a unit/fare class); the identifier is aliased
across `id`/`unitId`, the label across `label`/`name`/`unitName`, the
price across `price`/`amount`. -/
structure PriceOption : Type where
  id : Option String := none
  unitId : Option String := none
  label : Option String := none
  name : Option String := none
  unitName : Option String := none
  price : Option Int := none
  amount : Option Int := none
deriving DecidableEq, Repr

/-- A caller-supplied unit request. -/
structure UnitQuantity : Type where
  unitId : Option String := none
  quantity : Option Int := none
  unitName : Option String := none
  label : Option String := none
deriving DecidableEq, Repr

/-- A pickup location record (passed through opaquely by the code the
claims are about). -/
structure PickupPoint : Type where
  locationName : Option String := none
deriving DecidableEq, Repr

/-- The nested object read by `avail.availability?.status`. -/
structure NestedAvailability : Type where
  status : Option String := none
deriving DecidableEq, Repr

/-- One raw availability session record as consumed by
`searchAvailability` / `availabilityCalendar` (src/index.js) and by the
availability resolvers (src/resolvers/availability.js).  Absent fields are
`none`; the same structure also represents the enriched `rootValue`
produced by the per-session processing (which spreads the original record
and overrides the normalized fields). -/
structure SessionRec : Type where
  status : Option String := none
  availabilityStatus : Option String := none
  availability : Option NestedAvailability := none
  startTimeLocal : Option String := none
  startTime : Option String := none
  start : Option String := none
  endTimeLocal : Option String := none
  endTime : Option String := none
  «end» : Option String := none
  allDay : Option JSVal := none
  allDayEvent : Option JSVal := none
  priceOptions : Option (List PriceOption) := none
  prices : Option (List PriceOption) := none
  pricingOptions : Option (List PriceOption) := none
  seatsAvailable : Option JSVal := none
  available : Option JSVal := none
  vacancies : Option JSVal := none
  availableSeats : Option JSVal := none
  remainingSeats : Option JSVal := none
  pickupPoints : Option (List PickupPoint) := none
  unitsWithQuantity : Option (List UnitQuantity) := none
deriving DecidableEq, Repr

/-- A session record with every field absent. -/
def emptySession : SessionRec := {}

/-- Translated from `Plugin.calculateSeatsAvailable` (src/index.js
lines 196-205): `!avail` short-circuits to 0; otherwise the first defined
field among `seatsAvailable`, `available`, `vacancies`, `availableSeats`,
`remainingSeats` (default 0) is coerced with `Number(seats) || 0`. -/
def calculateSeatsAvailable : Option SessionRec → Int
  | none => 0
  | some avail =>
      let seats :=
        if jsDefined avail.seatsAvailable then avail.seatsAvailable.getD .undef
        else if jsDefined avail.available then avail.available.getD .undef
        else if jsDefined avail.vacancies then avail.vacancies.getD .undef
        else if jsDefined avail.availableSeats then avail.availableSeats.getD .undef
        else if jsDefined avail.remainingSeats then avail.remainingSeats.getD .undef
        else JSVal.num 0
      -- `Number(seats) || 0`: NaN collapses to 0, any finite number (0
      -- included) is returned as such
      (seats.toNumber).getD 0

/-- Written from the spec's words (claim C7 / spec section 4.2), for the
refinement comparison: the seat source is the first defined field in the
order `seatsAvailable`, `available`, `vacancies`, `availableSeats`,
`remainingSeats`, defaulting to 0. -/
def specSeatSource (avail : SessionRec) : JSVal :=
  if jsDefined avail.seatsAvailable then avail.seatsAvailable.getD .undef
  else if jsDefined avail.available then avail.available.getD .undef
  else if jsDefined avail.vacancies then avail.vacancies.getD .undef
  else if jsDefined avail.availableSeats then avail.availableSeats.getD .undef
  else if jsDefined avail.remainingSeats then avail.remainingSeats.getD .undef
  else JSVal.num 0

/-- Written from the spec's words: the chosen value is coerced to a
number, a coercion yielding not-a-number gives 0. -/
def specSeatCount (avail : SessionRec) : Int :=
  (specSeatSource avail).toNumber.getD 0

/-! ## Response shape extraction (src/index.js lines 219-261) -/

/-- The `requestStatus` envelope of an upstream response.  A present
`requestStatus` object is always truthy in JS; a falsy `requestStatus`
property (absent, null, false) behaves identically to an absent one in
every test the code performs, so both are modelled as `none` at the use
sites. -/
structure RequestStatus : Type where
  success : JSVal := .undef
deriving DecidableEq, Repr

/-- A non-array upstream payload object.  The four envelope fields are
`some xs` when the property holds an array (a present non-array value
fails every `Array.isArray` test the code performs, like an absent one);
`selfRec` is the same JS object viewed as a single availability record, used
when the code returns `[data]`. -/
structure PObj (α : Type) : Type where
  requestStatus : Option RequestStatus := none
  sessions : Option (List α) := none
  availability : Option (List α) := none
  data : Option (List α) := none
  items : Option (List α) := none
  selfRec : α
deriving DecidableEq, Repr

/-- An upstream availability payload: null, undefined, a bare array, an
object, or a non-object primitive. -/
inductive Payload (α : Type) : Type
  | null
  | undef
  | arr (xs : List α)
  | obj (o : PObj α)
  | prim
deriving DecidableEq, Repr

/-- Translated from `Plugin.extractAvailabilityData` (src/index.js
lines 219-261).  `null`/`undefined` (and falsy primitives, via `!data`)
give `[]`; a truthy `requestStatus` with `success === false` gives `[]`;
a successful wrapper returns the first array among `sessions`,
`availability`, `data`, `items` and otherwise falls through to the final
`[]` (the single-object case is guarded by `!data.requestStatus`); a bare
array is returned as-is; a plain object yields the first array among
`data`, `availability`, `sessions`, `items`, else the one-element list of
the object itself; truthy non-object primitives fail the
`typeof data === 'object'` test and give `[]`. -/
def extractAvailabilityData {α : Type} : Payload α → List α
  | .null => []
  | .undef => []
  | .prim => []
  | .arr xs => xs
  | .obj o =>
      match o.requestStatus with
      | some rs =>
          if rs.success = JSVal.bool false then []
          else if let some xs := o.sessions then xs
          else if let some xs := o.availability then xs
          else if let some xs := o.data then xs
          else if let some xs := o.items then xs
          -- fall-through: none of the remaining branches can fire because
          -- no field is an array and `!data.requestStatus` is false
          else []
      | none =>
          if let some xs := o.data then xs
          else if let some xs := o.availability then xs
          else if let some xs := o.sessions then xs
          else if let some xs := o.items then xs
          else [o.selfRec]

/-- Written from the spec's words (claim C3 / spec section 4.3), for the
refinement comparison: null/undefined give the empty list; a
`requestStatus` wrapper with `success === false` gives the empty list; a
wrapped successful payload gives the first array among `sessions`,
`availability`, `data`, `items` in that order; a bare array gives itself;
a non-wrapped object gives the first array among `data`, `availability`,
`sessions`, `items` in that order, else the one-element list containing
the object itself; anything else gives the empty list. -/
def extractAvailabilitySpec {α : Type} : Payload α → List α
  | .null => []
  | .undef => []
  | .prim => []
  | .arr xs => xs
  | .obj o =>
      match o.requestStatus with
      | some rs =>
          if rs.success = JSVal.bool false then []
          else
            match o.sessions, o.availability, o.data, o.items with
            | some xs, _, _, _ => xs
            | none, some xs, _, _ => xs
            | none, none, some xs, _ => xs
            | none, none, none, some xs => xs
            | none, none, none, none => []
      | none =>
          match o.data, o.availability, o.sessions, o.items with
          | some xs, _, _, _ => xs
          | none, some xs, _, _ => xs
          | none, none, some xs, _ => xs
          | none, none, none, some xs => xs
          | none, none, none, none => [o.selfRec]

/-! ## Availability key codec (src/resolvers/availability.js) -/

/-- One `{optionLabel, value}` quantity entry inside an availability key,
with the legacy `label`/`quantity` aliases that `createBooking`
tolerates. -/
structure QtyRaw : Type where
  optionLabel : Option String := none
  value : Option Int := none
  label : Option String := none
  quantity : Option Int := none
deriving DecidableEq, Repr

/-- One booking-line item inside an availability key payload. -/
structure KeyItem : Type where
  productCode : Option String := none
  startTimeLocal : Option String := none
  quantities : Option (List QtyRaw) := none
deriving DecidableEq, Repr

/-- The logical payload of an availability key: the booking-line items and
the computed total price.  `totalAmount` is a `JSVal` because
`createBooking` re-validates its type. -/
structure KeyPayload : Type where
  items : Option (List KeyItem) := none
  totalAmount : JSVal := .undef
deriving DecidableEq, Repr

/-- A signed stateless continuation token: `jwt.sign(payload, secret)` is
modelled as the pair of the payload and the signing secret, and
verification succeeds exactly when the secrets agree.  The token is
opaque to the caller. -/
structure SignedToken : Type where
  payload : KeyPayload
  secret : String
deriving DecidableEq, Repr

/-- `jwt.sign(payload, secret)`. -/
def jwtSign (payload : KeyPayload) (secret : String) : SignedToken :=
  { payload := payload, secret := secret }

/-- `jwt.verify(token, secret)`: throws when the secret is missing or the
signature does not verify; otherwise returns the decoded payload
unmodified. -/
def jwtVerify (tok : SignedToken) (secret : Option String) : Except String KeyPayload :=
  match secret with
  | none => .error "secret or public key must be provided"
  | some s => if tok.secret = s then .ok tok.payload else .error "invalid signature"

/-- Translated from `findPriceOptionByUnitId`
(src/resolvers/availability.js lines 16-28): undefined/null unit ids never
match; otherwise the first price option whose lowercased `id` or `unitId`
string equals the lowercased unit id (with the redundant exact-equality
disjuncts kept from the source).  `p.id !== undefined ? String(p.id).toLowerCase() : ''`
and `p.unitId ? String(p.unitId).toLowerCase() : ''` both reduce to
lowercasing the field's value with `""` for an absent field, since
lowercasing the empty string is the empty string. -/
def findPriceOptionByUnitId (priceOptions : List PriceOption) (unitId : Option String) :
    Option PriceOption :=
  match unitId with
  | none => none
  | some uid =>
      if priceOptions.isEmpty then none
      else
        let unitIdStr := lowerStr uid
        priceOptions.find? fun p =>
          let pIdStr := lowerStr (p.id.getD "")
          let pUnitIdStr := lowerStr (p.unitId.getD "")
          pIdStr == unitIdStr || pUnitIdStr == unitIdStr
            || p.id == some uid || p.unitId == some uid

/-- Translated from `findPriceOptionByLabel`
(src/resolvers/availability.js lines 36-45): falsy labels never match;
otherwise the first price option whose lowercased `label` or `name`
equals the lowercased input. -/
def findPriceOptionByLabel (priceOptions : List PriceOption) (label : Option String) :
    Option PriceOption :=
  if ¬ strTruthy label then none
  else if priceOptions.isEmpty then none
  else
    let labelStr := lowerStr (label.getD "")
    priceOptions.find? fun p =>
      let pLabelStr := lowerStr (p.label.getD "")
      let pNameStr := lowerStr (p.name.getD "")
      pLabelStr == labelStr || pNameStr == labelStr

/-- The GraphQL variable values handed to the `key` resolver. -/
structure KeyArgs : Type where
  productId : Option String := none
  jwtKey : Option String := none
  unitsWithQuantity : Option (List UnitQuantity) := none
deriving DecidableEq, Repr

/-- `root.priceOptions || root.prices || []` as read by the `key`
resolver (arrays, even empty ones, are truthy). -/
def rootPriceOptions (root : SessionRec) : List PriceOption :=
  match root.priceOptions with
  | some xs => xs
  | none => root.prices.getD []

/-- The total-amount fold of the `key` resolver
(src/resolvers/availability.js lines 67-77): units with a falsy `unitId`
or no matching price option contribute zero; a match contributes
`(price !== undefined ? price : (amount || 0)) * (quantity || 0)`. -/
def keyTotalAmount (priceOptions : List PriceOption)
    (unitsWithQuantity : Option (List UnitQuantity)) : Int :=
  if priceOptions.length > 0 ∧ unitsWithQuantity.isSome then
    (unitsWithQuantity.getD []).foldl
      (fun acc u =>
        if ¬ strTruthy u.unitId then acc
        else
          match findPriceOptionByUnitId priceOptions u.unitId with
          | none => acc
          | some unit =>
              let price := unit.price.getD (unit.amount.getD 0)
              let quantity := u.quantity.getD 0
              acc + price * quantity)
      0
  else 0

/-- The label resolution of one requested unit inside the `key` resolver
(src/resolvers/availability.js lines 83-114): the unit's own
`unitName || label`, else the matching price option's
`label || name || unitName` looked up by unit id, else a last-resort
case-insensitive label match, else the literal `"Adult"`. -/
def resolveQuantity (priceOptions : List PriceOption) (o : UnitQuantity) : QtyRaw :=
  let optionLabel := strOr o.unitName o.label
  let optionLabel :=
    if ¬ strTruthy optionLabel ∧ strTruthy o.unitId then
      match findPriceOptionByUnitId priceOptions o.unitId with
      | some priceOption => strOr (strOr priceOption.label priceOption.name) priceOption.unitName
      | none => optionLabel
    else optionLabel
  let optionLabel :=
    if ¬ strTruthy optionLabel ∧ strTruthy (strOr o.label o.unitName) then
      match findPriceOptionByLabel priceOptions (strOr o.label o.unitName) with
      | some fallbackOption =>
          strOr (strOr fallbackOption.label fallbackOption.name) fallbackOption.unitName
      | none => optionLabel
    else optionLabel
  { optionLabel := strOr optionLabel (some "Adult")
    value := some (o.quantity.getD 0) }

/-- Translated from `resolvers.Query.key` (src/resolvers/availability.js
lines 49-118): null without a signing secret, for a status (after the
`status || availabilityStatus` alias) outside AVAILABLE/FREESALE, or for
a falsy start time; otherwise signs
`{items: [{productCode, startTimeLocal, quantities}], totalAmount}` with
the secret. -/
def keyResolver (root : SessionRec) (args : KeyArgs) : Option SignedToken :=
  if ¬ strTruthy args.jwtKey then none
  else
    let status := strOr root.status root.availabilityStatus
    if status ≠ some "AVAILABLE" ∧ status ≠ some "FREESALE" then none
    else
      let startTimeLocal := strOr (strOr root.startTimeLocal root.startTime) root.start
      if ¬ strTruthy startTimeLocal then none
      else
        let priceOptions := rootPriceOptions root
        let totalAmount := keyTotalAmount priceOptions args.unitsWithQuantity
        let quantities :=
          ((args.unitsWithQuantity.getD []).filter (fun o => intTruthy o.quantity)).map
            (resolveQuantity priceOptions)
        some (jwtSign
          { items := some [{ productCode := args.productId
                             startTimeLocal := startTimeLocal
                             quantities := some quantities }]
            totalAmount := .num totalAmount }
          (args.jwtKey.getD ""))

/-- Written from the spec's words (claim C1): the contribution of one
requested unit to the total amount.  A unit with a (nonempty) identifier
is matched to the first price option whose identifier (aliased across
`id`/`unitId`) equals it case-insensitively; a match contributes price
(aliased across `price`/`amount`) times quantity, and an unmatched unit
contributes zero. -/
def specUnitContribution (priceOptions : List PriceOption) (u : UnitQuantity) : Int :=
  match u.unitId with
  | none => 0
  | some uid =>
      if uid = "" then 0
      else
        match priceOptions.find? (fun p =>
          lowerStr (p.id.getD "") == lowerStr uid
            || lowerStr (p.unitId.getD "") == lowerStr uid) with
        | some p => p.price.getD (p.amount.getD 0) * u.quantity.getD 0
        | none => 0

/-- Written from the spec's words (claim C1): the total amount is the sum
over the requested units of the matched price times quantity, with
unmatched units contributing zero. -/
def specTotalAmount (units : List UnitQuantity) (priceOptions : List PriceOption) : Int :=
  (units.map (specUnitContribution priceOptions)).sum

/-! ## Per-session processing shared by `searchAvailability`
(src/index.js lines 443-502) and `availabilityCalendar`
(src/index.js lines 584-643); the two bodies are character-for-character
identical. -/

/-- The status derivation of the per-session processing (src/index.js
lines 452-457): `avail.status || avail.availabilityStatus ||
avail.availability?.status`, and when that is falsy the status is
inferred as AVAILABLE exactly when the normalized seat count is
positive. -/
def derivedStatus (avail : SessionRec) : Option String :=
  let status := strOr (strOr avail.status avail.availabilityStatus)
    (avail.availability.bind NestedAvailability.status)
  if strTruthy status then status
  else
    let seatsAvailable := calculateSeatsAvailable (some avail)
    if seatsAvailable > 0 then some "AVAILABLE" else none

/-- `avail.startTimeLocal || avail.startTime || avail.start`
(src/index.js line 459). -/
def derivedStart (avail : SessionRec) : Option String :=
  strOr (strOr avail.startTimeLocal avail.startTime) avail.start

/-- `avail.endTimeLocal || avail.endTime || avail.end`
(src/index.js line 460). -/
def derivedEnd (avail : SessionRec) : Option String :=
  strOr (strOr avail.endTimeLocal avail.endTime) avail.«end»

/-- `avail.allDay !== undefined ? avail.allDay : (avail.allDayEvent || false)`
(src/index.js line 461). -/
def derivedAllDay (avail : SessionRec) : JSVal :=
  if jsDefined avail.allDay then avail.allDay.getD .undef
  else
    match avail.allDayEvent with
    | some v => if v.truthy then v else .bool false
    | none => .bool false

/-- `avail.priceOptions || avail.prices || avail.pricingOptions || []`
(src/index.js line 462); present arrays, even empty ones, are truthy. -/
def derivedPriceOptions (avail : SessionRec) : List PriceOption :=
  match avail.priceOptions with
  | some xs => xs
  | none =>
      match avail.prices with
      | some xs => xs
      | none => avail.pricingOptions.getD []

/-- Translated from the per-session body of `searchAvailability` /
`availabilityCalendar` (src/index.js lines 446-499 and 587-640): derives
status, seat count, start/end time, all-day flag and price options, drops
the session (returns null) when the start time is falsy, the status is
falsy, or the status is neither AVAILABLE nor FREESALE, and otherwise
builds the `rootValue` handed to the projection engine by spreading the
original record and overriding the normalized fields.  The projection
itself (`translateAvailability`) is an external collaborator, so the
model returns the `rootValue`. -/
def processSession (avail : SessionRec) (units : Option (List UnitQuantity))
    (pickupPoints : List PickupPoint) : Option SessionRec :=
  let status := derivedStatus avail
  let seatsAvailable := calculateSeatsAvailable (some avail)
  let startTimeLocal := derivedStart avail
  let endTimeLocal := derivedEnd avail
  let allDay := derivedAllDay avail
  let priceOptions := derivedPriceOptions avail
  if ¬ strTruthy startTimeLocal ∨ ¬ strTruthy status then none
  else if status ≠ some "AVAILABLE" ∧ status ≠ some "FREESALE" then none
  else
    some { avail with
      pickupPoints := some pickupPoints
      unitsWithQuantity := units
      status := status
      startTimeLocal := startTimeLocal
      endTimeLocal := endTimeLocal
      allDay := some allDay
      seatsAvailable := some (.num seatsAvailable)
      priceOptions := some priceOptions }

/-- The sessions of one product: each raw record is processed and the
null results are filtered out (src/index.js lines 443-511). -/
def processProductAvailability (sessions : List SessionRec)
    (units : Option (List UnitQuantity)) (pickupPoints : List PickupPoint) :
    List SessionRec :=
  (sessions.map fun avail => processSession avail units pickupPoints).filterMap id

/-! ## Endpoint validation and the facade (src/index.js) -/

/-- The plugin instance's configuration relevant to the claims. -/
structure Plugin : Type where
  endpoint : Option String := none
  jwtKey : Option String := none
deriving DecidableEq, Repr

/-- `https://api.rezdy.com/v1` (src/index.js line 19). -/
def DEFAULT_ENDPOINT : String := "https://api.rezdy.com/v1"

/-- A caller-supplied endpoint value of arbitrary JS type. -/
inductive EndpointInput : Type
  | str (s : String)
  | num (n : Int)
  | nan
  | bool (b : Bool)
  | null
  | undef
  | obj
  | arr
deriving DecidableEq, Repr

/-- JS truthiness for endpoint inputs: objects and arrays are always
truthy. -/
def EndpointInput.truthy : EndpointInput → Bool
  | .str s => s != ""
  | .num n => n != 0
  | .nan => false
  | .bool b => b
  | .null => false
  | .undef => false
  | .obj => true
  | .arr => true

/-- Split a character list at its first colon. -/
def splitScheme : List Char → Option (List Char × List Char)
  | [] => none
  | c :: cs =>
      if c = ':' then some ([], cs)
      else
        match splitScheme cs with
        | some (scheme, rest) => some (c :: scheme, rest)
        | none => none

/-- A syntactically valid URL scheme: an ASCII letter followed by
letters, digits, `+`, `-` or `.`. -/
def schemeOk : List Char → Bool
  | [] => false
  | c :: cs => c.isAlpha && cs.all fun ch => ch.isAlphanum || ch = '+' || ch = '-' || ch = '.'

/-- Model of the WHATWG `new URL(string)` constructor used by
`isValidUrl`: parsing succeeds exactly when the string starts with a
scheme terminated by a colon, and, for the special schemes, the colon is
followed by `//` and a nonempty host.  This covers the inputs the claims
exercise; the constructor itself is a platform capability, not repository
code. -/
def urlParseOk (s : String) : Bool :=
  match splitScheme s.data with
  | none => false
  | some (scheme, rest) =>
      schemeOk scheme &&
        (if ["http", "https", "ws", "wss", "ftp"].contains (String.mk (scheme.map Char.toLower))
         then
           match rest with
           | '/' :: '/' :: c :: _ => c != '/'
           | _ => false
         else true)

/-- Translated from `isValidUrl` (src/index.js lines 44-52): falsy or
non-string inputs are invalid; otherwise validity is decided by the URL
constructor. -/
def isValidUrl (v : EndpointInput) : Bool :=
  match v with
  | .str s => if s = "" then false else urlParseOk s
  | _ => false

/-- The error thrown by `validateEndpoint`:
`Invalid endpoint URL: ${endpoint}` carries the offending input. -/
inductive EndpointErr : Type
  | invalidEndpoint (offending : EndpointInput)
deriving DecidableEq, Repr

/-- Translated from `Plugin.validateEndpoint` (src/index.js
lines 180-188): a falsy endpoint yields `this.endpoint ||
DEFAULT_ENDPOINT`; an invalid endpoint throws
`Invalid endpoint URL: ${endpoint}` (identifying the offending input);
a valid endpoint string is returned unchanged.  `isValidUrl` only
accepts strings, so the returned value in the last branch is the input
string. -/
def validateEndpoint (p : Plugin) (endpoint : EndpointInput) : Except EndpointErr String :=
  if ¬ endpoint.truthy then
    .ok (if strTruthy p.endpoint then p.endpoint.getD "" else DEFAULT_ENDPOINT)
  else if ¬ isValidUrl endpoint then
    .error (.invalidEndpoint endpoint)
  else
    match endpoint with
    | .str s => .ok s
    | _ => .error (.invalidEndpoint endpoint)

/-- An error raised by the availability operations: a failed `assert`
carrying its message, or an invalid endpoint. -/
inductive AvailErr : Type
  | assertFailed (msg : String)
  | badEndpoint (e : EndpointErr)
deriving DecidableEq, Repr

/-- The shared body of `searchAvailability` (src/index.js lines 402-513)
and `availabilityCalendar` (src/index.js lines 543-652) after the
jwt-secret assert: the length and id validations, endpoint validation,
then — the upstream HTTP responses and per-product pickup-point lists
being inputs of the model — shape extraction, per-session processing and
the removal of empty per-product groups.  The projection engine is
external, so the output lists carry the `rootValue` records. -/
def availabilityBody (p : Plugin) (endpoint : EndpointInput)
    (productIds optionIds : List String) (units : List (Option (List UnitQuantity)))
    (responses : List (Payload SessionRec)) (pickups : List (List PickupPoint)) :
    Except AvailErr (List (List SessionRec)) :=
  if productIds.length ≠ optionIds.length then
    .error (.assertFailed "mismatched productIds/options length")
  else if optionIds.length ≠ units.length then
    .error (.assertFailed "mismatched options/units length")
  else if ¬ productIds.all (fun s => s != "") then
    .error (.assertFailed "some invalid productId(s)")
  else if ¬ optionIds.all (fun s => s != "") then
    .error (.assertFailed "some invalid optionId(s)")
  else
    match validateEndpoint p endpoint with
    | .error e => .error (.badEndpoint e)
    | .ok _ =>
        let extracted := responses.map extractAvailabilityData
        let perProduct := (extracted.zip (units.zip pickups)).map fun x =>
          processProductAvailability x.1 x.2.1 x.2.2
        .ok (perProduct.filter (fun avails => avails != []))

/-- Translated from `Plugin.searchAvailability` (src/index.js
lines 382-514): `assert(this.jwtKey, 'JWT secret should be set')` runs
first, before the payload validations and before any upstream call. -/
def searchAvailability (p : Plugin) (endpoint : EndpointInput)
    (productIds optionIds : List String) (units : List (Option (List UnitQuantity)))
    (responses : List (Payload SessionRec)) (pickups : List (List PickupPoint)) :
    Except AvailErr (List (List SessionRec)) :=
  if ¬ strTruthy p.jwtKey then .error (.assertFailed "JWT secret should be set")
  else availabilityBody p endpoint productIds optionIds units responses pickups

/-- Translated from `Plugin.availabilityCalendar` (src/index.js
lines 524-653): identical to `searchAvailability` except that it performs
no jwt-secret assert. -/
def availabilityCalendar (p : Plugin) (endpoint : EndpointInput)
    (productIds optionIds : List String) (units : List (Option (List UnitQuantity)))
    (responses : List (Payload SessionRec)) (pickups : List (List PickupPoint)) :
    Except AvailErr (List (List SessionRec)) :=
  availabilityBody p endpoint productIds optionIds units responses pickups

/-! ## Booking creation (src/index.js lines 663-855) -/

/-- Booking holder information. -/
structure Holder : Type where
  name : Option String := none
  surname : Option String := none
  emailAddress : Option String := none
  phoneNumber : Option String := none
deriving DecidableEq, Repr

/-- A `{label, value}` participant field. -/
structure PField : Type where
  label : Option String := none
  value : Option String := none
deriving DecidableEq, Repr

/-- A caller-supplied participant record. -/
structure Participant : Type where
  firstName : Option String := none
  lastName : Option String := none
  name : Option String := none
  surname : Option String := none
  fields : Option (List PField) := none
deriving DecidableEq, Repr

/-- A caller-supplied payment record. -/
structure PaymentIn : Type where
  amount : Option JSVal := none
  type : Option String := none
  recipient : Option String := none
  label : Option String := none
deriving DecidableEq, Repr

/-- The `createBooking` payload. -/
structure CBPayload : Type where
  availabilityKey : Option SignedToken := none
  holder : Option Holder := none
  notes : Option String := none
  reference : Option String := none
  pickupPoint : Option String := none
  participants : Option (List Participant) := none
  payments : Option (List PaymentIn) := none
  createdBy : Option String := none
deriving DecidableEq, Repr

/-- The customer block of the upstream booking request. -/
structure CustomerReq : Type where
  firstName : Option String := none
  lastName : Option String := none
  email : Option String := none
  phone : String := ""
deriving DecidableEq, Repr

/-- A normalized `{optionLabel, value}` quantity in the upstream
request. -/
structure KeyQty : Type where
  optionLabel : Option String := none
  value : Int := 0
deriving DecidableEq, Repr

/-- One participant of the upstream request, serialized as a field
list. -/
structure ParticipantReq : Type where
  fields : List PField := []
deriving DecidableEq, Repr

/-- One line item of the upstream booking request. -/
structure ItemReq : Type where
  productCode : Option String := none
  startTimeLocal : Option String := none
  quantities : List KeyQty := []
  participants : Option (List ParticipantReq) := none
  pickupLocation : Option String := none
deriving DecidableEq, Repr

/-- One payment of the upstream booking request. -/
structure PaymentReq : Type where
  amount : Int := 0
  type : String := ""
  recipient : String := ""
  label : String := ""
deriving DecidableEq, Repr

/-- The assembled upstream booking-creation request (`bookingData`). -/
structure BookingRequest : Type where
  comments : Option String := none
  customer : CustomerReq := {}
  createdBy : Option String := none
  items : List ItemReq := []
  payments : List PaymentReq := []
  resellerReference : Option String := none
  resellerId : Option String := none
deriving DecidableEq, Repr

/-- An error raised by `createBooking` before the upstream call: a failed
assert, a bad endpoint, or a jwt verification failure. -/
inductive CBErr : Type
  | assertFailed (msg : String)
  | badEndpoint (e : EndpointErr)
  | jwtError (msg : String)
deriving DecidableEq, Repr

/-- Quantity normalization inside `createBooking` (src/index.js
lines 713-728): a quantity with a truthy `optionLabel` and a defined
`value` passes through; otherwise the label falls back over
`optionLabel || label || 'Quantity'` and the value over
`value !== undefined ? value : (quantity || 1)`. -/
def normalizeQty (qty : QtyRaw) : KeyQty :=
  if strTruthy qty.optionLabel ∧ qty.value.isSome then
    { optionLabel := qty.optionLabel, value := qty.value.getD 0 }
  else
    { optionLabel := strOr (strOr qty.optionLabel qty.label) (some "Quantity")
      value :=
        match qty.value with
        | some v => v
        | none => if intTruthy qty.quantity then qty.quantity.getD 0 else 1 }

/-- Participant serialization inside `createBooking` (src/index.js
lines 758-782): a participant that already carries a field list passes
through; otherwise First Name / Last Name fields are built from
`firstName || name` and `lastName || surname`. -/
def serializeParticipant (participant : Participant) : ParticipantReq :=
  match participant.fields with
  | some fs => { fields := fs }
  | none =>
      let fields :=
        (if strTruthy (strOr participant.firstName participant.name) then
          [{ label := some "First Name"
             value := strOr participant.firstName participant.name : PField }]
         else []) ++
        (if strTruthy (strOr participant.lastName participant.surname) then
          [{ label := some "Last Name"
             value := strOr participant.lastName participant.surname : PField }]
         else [])
      { fields := fields }

/-- Payment-amount validation inside `createBooking` (src/index.js
lines 797-804 and 818-826): `x || 0` followed by
`typeof x !== 'number' || isNaN(x) || x < 0` collapsing to 0. -/
def validatedAmount (v : JSVal) : Int :=
  match (if v.truthy then v else .num 0) with
  | .num n => if n < 0 then 0 else n
  | _ => 0

/-- Translated from `Plugin.createBooking` (src/index.js lines 663-855)
up to (and excluding) the upstream `POST /bookings` call: the three
fail-fast asserts, endpoint validation, jwt verification of the
availability key, and the assembly of `bookingData`.  A `.error` result
means the function threw before any upstream booking request was
issued. -/
def createBooking (p : Plugin) (resellerId : Option String) (endpoint : EndpointInput)
    (payload : CBPayload) : Except CBErr BookingRequest :=
  if payload.availabilityKey.isNone then
    .error (.assertFailed "an availability code is required !")
  else if ¬ strTruthy (payload.holder.bind Holder.name) then
    .error (.assertFailed "a holder\x27s first name is required")
  else if ¬ strTruthy (payload.holder.bind Holder.surname) then
    .error (.assertFailed "a holder\x27s surname is required")
  else
    match validateEndpoint p endpoint with
    | .error e => .error (.badEndpoint e)
    | .ok _ =>
        match jwtVerify (payload.availabilityKey.getD ⟨{}, ""⟩) p.jwtKey with
        | .error msg => .error (.jwtError msg)
        | .ok dataFromAvailKey =>
            let holder := payload.holder.getD {}
            .ok
              { comments := if strTruthy payload.notes then payload.notes else none
                customer :=
                  { firstName := holder.name
                    lastName := holder.surname
                    email :=
                      if lowerStr (holder.emailAddress.getD "") ≠ "collect" then
                        holder.emailAddress
                      else none
                    phone := holder.phoneNumber.getD "" }
                createdBy := if strTruthy payload.createdBy then payload.createdBy else none
                items := (dataFromAvailKey.items.getD []).map fun item =>
                  let quantities := (item.quantities.getD []).map normalizeQty
                  let totalQuantity := quantities.foldl (fun sum qty => sum + qty.value) 0
                  let participantTarget := max totalQuantity 1
                  let defaultParticipant : Participant :=
                    { firstName := holder.name, lastName := holder.surname }
                  let participantsToAdd :=
                    match payload.participants with
                    | none => List.replicate participantTarget.toNat defaultParticipant
                    | some ps =>
                        if ps.isEmpty then
                          List.replicate participantTarget.toNat defaultParticipant
                        else if ps.length < participantTarget.toNat then
                          ps ++ List.replicate (participantTarget.toNat - ps.length)
                            defaultParticipant
                        else ps
                  { productCode := item.productCode
                    startTimeLocal := item.startTimeLocal
                    quantities := quantities
                    participants :=
                      if participantsToAdd.isEmpty then none
                      else some (participantsToAdd.map serializeParticipant)
                    pickupLocation :=
                      if strTruthy payload.pickupPoint then payload.pickupPoint else none }
                payments :=
                  match payload.payments with
                  | some ps =>
                      if ps.isEmpty then
                        [{ amount := validatedAmount dataFromAvailKey.totalAmount
                           type := "CASH", recipient := "SUPPLIER"
                           label := "Payment for booking" }]
                      else
                        ps.map fun payment =>
                          { amount := validatedAmount (payment.amount.getD .undef)
                            type := if strTruthy payment.type then payment.type.getD "" else "CASH"
                            recipient :=
                              if strTruthy payment.recipient then payment.recipient.getD ""
                              else "SUPPLIER"
                            label := if strTruthy payment.label then payment.label.getD ""
                              else "Payment" }
                  | none =>
                      [{ amount := validatedAmount dataFromAvailKey.totalAmount
                         type := "CASH", recipient := "SUPPLIER"
                         label := "Payment for booking" }]
                resellerReference :=
                  if strTruthy payload.reference then payload.reference else none
                resellerId := if strTruthy resellerId then resellerId else none }

/-! ## Booking search (src/index.js lines 907-1054) -/

/-- A raw upstream booking record, reduced to the fields the search
orchestration reads (identifier aliases for deduplication). -/
structure BookingRec : Type where
  orderNumber : Option String := none
  id : Option String := none
deriving DecidableEq, Repr

/-- The response body seen by one lookup strategy: either a bare array of
booking records or an object.  The object's `bookings` field is `some xs`
when it holds an array (the code only tests truthiness and arrays of
bookings are truthy even when empty); `selfRec` is the object viewed as a
single booking record, used when the code returns `[data]`. -/
structure BRespObj : Type where
  requestStatus : Option RequestStatus := none
  bookings : Option (List BookingRec) := none
  selfRec : BookingRec := {}
deriving DecidableEq, Repr

/-- A strategy's upstream response data. -/
inductive BData : Type
  | arr (xs : List BookingRec)
  | obj (o : BRespObj)
deriving DecidableEq, Repr

/-- The outcome of one strategy's `this.axios` call: either the call
resolved with data, or it threw, carrying the error code found (if any)
at `response.data.requestStatus.error.errorCode`.  The axios wrapper
(src/index.js lines 118-155) only resolves a `success:false` body when
its error code is the "No order found" sentinel `'24'`; any other
`success:false` body is rethrown and reaches `searchByUrl` as a thrown
error carrying that code. -/
inductive StrategyOutcome : Type
  | resp (d : BData)
  | thrown (errorCode : Option String)
deriving DecidableEq, Repr

/-- Translated from `searchByUrl` (src/index.js lines 935-980): returns
the strategy's result (null meaning "no result") together with whether it
set `hadNonNotFoundError`.  A resolved body whose `requestStatus` is
present with falsy `success` gives null without flagging an error; a
thrown error with the `'24'` "No order found" code gives null without
flagging; any other thrown error gives null and flags.  Otherwise the
result is `data.bookings`, or `[data]` for a single booking object with
an `orderNumber`, or the array itself, or `[data]` for any other
object. -/
def searchByUrl (outcome : StrategyOutcome) : Option (List BookingRec) × Bool :=
  match outcome with
  | .resp d =>
      match d with
      | .arr xs => (some xs, false)
      | .obj o =>
          match o.requestStatus with
          | some rs =>
              if ¬ rs.success.truthy then (none, false)
              else if o.bookings.isSome then (o.bookings, false)
              else if strTruthy o.selfRec.orderNumber then (some [o.selfRec], false)
              else (some [o.selfRec], false)
          | none =>
              if o.bookings.isSome then (o.bookings, false)
              else if strTruthy o.selfRec.orderNumber then (some [o.selfRec], false)
              else (some [o.selfRec], false)
  | .thrown errorCode =>
      if errorCode = some "24" then (none, false)
      else (none, true)

/-- The deduplication pass (src/index.js lines 997-1010): keep a booking
only when `orderNumber || id` is truthy and was not seen before. -/
def dedupBookings : List BookingRec → List String → List BookingRec
  | [], _ => []
  | b :: rest, seen =>
      let orderNumber := strOr b.orderNumber b.id
      if ¬ strTruthy orderNumber then dedupBookings rest seen
      else if (orderNumber.getD "") ∈ seen then dedupBookings rest seen
      else b :: dedupBookings rest ((orderNumber.getD "") :: seen)

/-- The merged, flattened, deduplicated result of the three
by-identifier strategies (src/index.js lines 984-1010). -/
def mergedBookings (o1 o2 o3 : StrategyOutcome) : List BookingRec :=
  let results := [(searchByUrl o1).1, (searchByUrl o2).1, (searchByUrl o3).1]
  let allBookings := (results.filterMap id).flatten
  dedupBookings allBookings []

/-- Whether any of the three strategies set `hadNonNotFoundError`. -/
def hadNonNotFoundError (o1 o2 o3 : StrategyOutcome) : Bool :=
  (searchByUrl o1).2 || (searchByUrl o2).2 || (searchByUrl o3).2

/-- Translated from the booking-identifier branch of
`Plugin.searchBooking` (src/index.js lines 981-1043): the three
concurrent strategies are merged and deduplicated, and when the result
set is empty while some strategy failed with a non-"not found" error the
whole operation throws `Search booking failed due to API errors`. -/
def searchBookingById (o1 o2 o3 : StrategyOutcome) :
    Except String (List BookingRec) :=
  let bookings := mergedBookings o1 o2 o3
  if bookings.isEmpty ∧ hadNonNotFoundError o1 o2 o3 then
    .error "Search booking failed due to API errors"
  else .ok bookings

/-! ## Booking projection (src/resolvers/booking.js) -/

/-- A raw booking record as seen by the booking resolvers: the status and
the upstream-reported `cancellable` value (an arbitrary JS value). -/
structure BookingRoot : Type where
  status : Option String := none
  cancellable : JSVal := .undef
deriving DecidableEq, Repr

/-- Translated from `resolvers.Query.cancellable`
(src/resolvers/booking.js lines 19-23): CANCELLED bookings are never
cancellable; otherwise the upstream value is passed through. -/
def cancellableResolver (root : BookingRoot) : JSVal :=
  if root.status = some "CANCELLED" then .bool false
  else root.cancellable

/-- The spec's round-trip example session: a sellable AVAILABLE session
priced at 150 per adult. -/
def sampleRoot : SessionRec :=
  { status := some "AVAILABLE"
    startTimeLocal := some "2026-03-15T18:00:00"
    priceOptions := some [{ id := some "adults", price := some 150 }] }

/-- The spec's round-trip example arguments: two adults requested, with a
signing secret. -/
def sampleArgs : KeyArgs :=
  { productId := some "120"
    jwtKey := some "topsecret"
    unitsWithQuantity := some [{ unitId := some "adults", quantity := some 2 }] }

/-! ## Helper lemmas -/

/-- `find?` only depends on the predicate pointwise. -/
theorem find?_congr {α : Type} (p q : α → Bool) (h : ∀ a, p a = q a) :
    ∀ l : List α, l.find? p = l.find? q := by
  intro l
  induction l with
  | nil => rfl
  | cons a t ih => simp [List.find?_cons, h a, ih]

/-- The exact-equality disjuncts of the `findPriceOptionByUnitId`
predicate are subsumed by the case-insensitive comparisons. -/
theorem matchPred_eq (uid : String) (p : PriceOption) :
    (lowerStr (p.id.getD "") == lowerStr uid || lowerStr (p.unitId.getD "") == lowerStr uid
        || p.id == some uid || p.unitId == some uid)
      = (lowerStr (p.id.getD "") == lowerStr uid
          || lowerStr (p.unitId.getD "") == lowerStr uid) := by
  by_cases h1 : p.id = some uid
  · simp [h1]
  · by_cases h2 : p.unitId = some uid
    · simp [h2]
    · have e1 : (p.id == some uid) = false := beq_eq_false_iff_ne.mpr h1
      have e2 : (p.unitId == some uid) = false := beq_eq_false_iff_ne.mpr h2
      rw [e1, e2]
      simp

/-- `findPriceOptionByUnitId` agrees with the spec-side case-insensitive
lookup. -/
theorem findPriceOptionByUnitId_eq_spec (priceOptions : List PriceOption) (uid : String) :
    findPriceOptionByUnitId priceOptions (some uid)
      = priceOptions.find? (fun p =>
          lowerStr (p.id.getD "") == lowerStr uid
            || lowerStr (p.unitId.getD "") == lowerStr uid) := by
  cases priceOptions with
  | nil => rfl
  | cons a t => exact find?_congr _ _ (fun p => matchPred_eq uid p) (a :: t)

/-- One step of the total-amount fold equals the accumulator plus the
spec-side contribution of the unit. -/
theorem keyTotal_step (priceOptions : List PriceOption) (acc : Int) (u : UnitQuantity) :
    (if ¬ strTruthy u.unitId then acc
     else
       match findPriceOptionByUnitId priceOptions u.unitId with
       | none => acc
       | some unit =>
           let price := unit.price.getD (unit.amount.getD 0)
           let quantity := u.quantity.getD 0
           acc + price * quantity)
      = acc + specUnitContribution priceOptions u := by
  cases hu : u.unitId with
  | none => simp [strTruthy, specUnitContribution, hu]
  | some uid =>
      by_cases he : uid = ""
      · simp [strTruthy, hu, he, specUnitContribution]
      · rw [if_neg (by simp [strTruthy, hu, he])]
        rw [findPriceOptionByUnitId_eq_spec]
        unfold specUnitContribution
        rw [hu]
        cases hf : priceOptions.find? (fun p =>
            lowerStr (p.id.getD "") == lowerStr uid
              || lowerStr (p.unitId.getD "") == lowerStr uid) with
        | none => simp [hf, he]
        | some po => simp [hf, he]

/-- The total-amount fold computes the accumulator plus the spec-side
sum. -/
theorem keyTotal_fold (priceOptions : List PriceOption) :
    ∀ (us : List UnitQuantity) (acc : Int),
      us.foldl
        (fun acc u =>
          if ¬ strTruthy u.unitId then acc
          else
            match findPriceOptionByUnitId priceOptions u.unitId with
            | none => acc
            | some unit =>
                let price := unit.price.getD (unit.amount.getD 0)
                let quantity := u.quantity.getD 0
                acc + price * quantity)
        acc
        = acc + specTotalAmount us priceOptions := by
  intro us
  induction us with
  | nil => intro acc; simp [specTotalAmount]
  | cons u t ih =>
      intro acc
      rw [List.foldl_cons, ih]
      have := keyTotal_step priceOptions acc u
      simp only [specTotalAmount, List.map_cons, List.sum_cons] at this ⊢
      omega

/-- The resolver's total amount equals the spec-side sum: an absent units
array and an empty price-option list both make the resolver skip the fold
and return 0, which agrees with the empty/unmatched spec-side sum. -/
theorem keyTotalAmount_eq_spec (priceOptions : List PriceOption)
    (units : Option (List UnitQuantity)) :
    keyTotalAmount priceOptions units = specTotalAmount (units.getD []) priceOptions := by
  unfold keyTotalAmount
  cases units with
  | none => simp [specTotalAmount]
  | some us =>
      by_cases hl : priceOptions.length > 0
      · rw [if_pos ⟨hl, rfl⟩, keyTotal_fold]
        simp
      · have hnil : priceOptions = [] := by
          cases priceOptions with
          | nil => rfl
          | cons a t => simp at hl
        subst hnil
        rw [if_neg (by simp)]
        have : ∀ u, specUnitContribution [] u = 0 := by
          intro u
          unfold specUnitContribution
          cases u.unitId with
          | none => rfl
          | some uid => simp [List.find?]
        simp only [Option.getD_some, specTotalAmount]
        rw [List.sum_eq_zero]
        intro x hx
        obtain ⟨u, _, rfl⟩ := List.mem_map.mp hx
        exact this u

/-- `a || b` on optional strings is truthy exactly when one operand
is. -/
theorem strTruthy_strOr (a b : Option String) :
    strTruthy (strOr a b) = (strTruthy a || strTruthy b) := by
  unfold strOr
  by_cases h : strTruthy a <;> simp [h]

/-! ## Claims -/

/-- C7 — Seat-count normalization: null/undefined records yield 0; for
every record the result is the first defined field in the order
`seatsAvailable`, `available`, `vacancies`, `availableSeats`,
`remainingSeats` (default 0), coerced to a number with not-a-number
collapsing to 0; negative numeric values are returned unchanged, without
clamping. -/
theorem seat_count_normalization :
    calculateSeatsAvailable none = 0
      ∧ (∀ r : SessionRec, calculateSeatsAvailable (some r) = specSeatCount r)
      ∧ (∀ n : Int,
          calculateSeatsAvailable (some { seatsAvailable := some (.num n) }) = n) := by
  refine ⟨rfl, fun r => rfl, fun n => rfl⟩

/-- C3 — Response Shape Extractor reference behaviour: the extractor is a
total Lean function (hence never throws), and on every payload it agrees
with the reference behaviour written from the spec: null/undefined give
the empty list, a `requestStatus` wrapper with `success === false` gives
the empty list, a wrapped successful payload gives the first array among
`sessions`/`availability`/`data`/`items`, a bare array gives itself, a
non-wrapped object gives the first array among
`data`/`availability`/`sessions`/`items` or the one-element list of the
object itself, and anything else gives the empty list. -/
theorem response_shape_extractor (α : Type) :
    ∀ p : Payload α, extractAvailabilityData p = extractAvailabilitySpec p := by
  intro p
  cases p with
  | null => rfl
  | undef => rfl
  | prim => rfl
  | arr xs => rfl
  | obj o =>
      rcases o with ⟨rs, sess, avail, data, items, selfRec⟩
      cases rs with
      | none =>
          cases data <;> cases avail <;> cases sess <;> cases items <;> rfl
      | some rs =>
          by_cases h : rs.success = JSVal.bool false <;>
            cases sess <;> cases avail <;> cases data <;> cases items <;>
              simp [extractAvailabilityData, extractAvailabilitySpec, h]

/-- C6 — Cancelled-booking invariant: a booking whose status is CANCELLED
projects `cancellable` as false regardless of the upstream `cancellable`
value; for any other status the upstream value is passed through. -/
theorem cancelled_booking_invariant :
    (∀ root : BookingRoot, root.status = some "CANCELLED" →
        cancellableResolver root = .bool false)
      ∧ (∀ root : BookingRoot, root.status ≠ some "CANCELLED" →
          cancellableResolver root = root.cancellable) := by
  constructor
  · intro root h
    simp [cancellableResolver, h]
  · intro root h
    simp [cancellableResolver, h]

/-- Witness for C6 at concrete records: a CANCELLED booking whose
upstream `cancellable` is true projects false; a CONFIRMED one passes
true through. -/
theorem cancelled_booking_invariant_witness :
    cancellableResolver { status := some "CANCELLED", cancellable := .bool true } = .bool false
      ∧ cancellableResolver { status := some "CONFIRMED", cancellable := .bool true }
          = .bool true := by
  constructor
  · exact cancelled_booking_invariant.1 _ rfl
  · exact cancelled_booking_invariant.2
      { status := some "CONFIRMED", cancellable := .bool true } (by decide)

/-- C9 counterexample — the claim requires every non-string non-empty
input, numbers included, to fail with `InvalidEndpoint`; but the number 0
is falsy in JS, so `validateEndpoint` falls into its `!endpoint` branch
and returns the default endpoint instead of failing. -/
theorem endpoint_validation_number_zero_counterexample :
    validateEndpoint {} (.num 0) = .ok DEFAULT_ENDPOINT := rfl

/-- C9 (amended) — Endpoint validation: every falsy input (absent,
null, the empty string, and also the falsy non-strings 0, NaN, false)
returns the instance's configured default or the hardcoded production
default; a well-formed absolute URL string is returned unchanged; a
malformed non-empty string, and every truthy non-string input (objects,
arrays, nonzero numbers), fails with an `InvalidEndpoint` error
identifying the offending input. -/
theorem endpoint_validation :
    (∀ (p : Plugin) (v : EndpointInput), v.truthy = false →
        validateEndpoint p v
          = .ok (if strTruthy p.endpoint then p.endpoint.getD "" else DEFAULT_ENDPOINT))
      ∧ (∀ (p : Plugin) (s : String), isValidUrl (.str s) = true →
          validateEndpoint p (.str s) = .ok s)
      ∧ (∀ (p : Plugin) (s : String), s ≠ "" → isValidUrl (.str s) = false →
          validateEndpoint p (.str s) = .error (.invalidEndpoint (.str s)))
      ∧ (∀ p : Plugin, validateEndpoint p .obj = .error (.invalidEndpoint .obj))
      ∧ (∀ p : Plugin, validateEndpoint p .arr = .error (.invalidEndpoint .arr))
      ∧ (∀ (p : Plugin) (n : Int), n ≠ 0 →
          validateEndpoint p (.num n) = .error (.invalidEndpoint (.num n))) := by
  refine ⟨?_, ?_, ?_, ?_, ?_, ?_⟩
  · intro p v h
    simp [validateEndpoint, h]
  · intro p s h
    have hs : s ≠ "" := by
      intro he
      subst he
      simp [isValidUrl] at h
    simp [validateEndpoint, EndpointInput.truthy, hs, h]
  · intro p s hs h
    simp [validateEndpoint, EndpointInput.truthy, hs, h]
  · intro p
    simp [validateEndpoint, EndpointInput.truthy, isValidUrl]
  · intro p
    simp [validateEndpoint, EndpointInput.truthy, isValidUrl]
  · intro p n h
    simp [validateEndpoint, EndpointInput.truthy, isValidUrl, h]

/-- Witness for C9 at the spec's own examples: an absent endpoint returns
the production default, a valid URL is returned unchanged, a malformed
string and a nonzero number fail identifying the input. -/
theorem endpoint_validation_witness :
    EndpointInput.truthy .undef = false
      ∧ validateEndpoint {} .undef = .ok DEFAULT_ENDPOINT
      ∧ validateEndpoint {} (.str "https://x.com") = .ok "https://x.com"
      ∧ validateEndpoint {} (.str "not-a-url")
          = .error (.invalidEndpoint (.str "not-a-url"))
      ∧ validateEndpoint {} (.num 5) = .error (.invalidEndpoint (.num 5)) := by
  refine ⟨rfl, ?_, ?_, ?_, ?_⟩
  · exact endpoint_validation.1 {} .undef rfl
  · exact endpoint_validation.2.1 {} "https://x.com" (by decide)
  · exact endpoint_validation.2.2.1 {} "not-a-url" (by decide) (by decide)
  · exact endpoint_validation.2.2.2.2.2 {} 5 (by decide)

/-- C4 — Unsellable-session exclusion: a session whose derived start time
is falsy or whose derived status is outside AVAILABLE/FREESALE is dropped
(processes to null), every record in the processed output has a sellable
status and a present start time, and the `key` resolver returns null for
a SOLD_OUT status or a missing start time. -/
theorem unsellable_session_exclusion :
    (∀ (avail : SessionRec) (units : Option (List UnitQuantity))
        (pps : List PickupPoint),
        ¬ strTruthy (derivedStart avail) → processSession avail units pps = none)
      ∧ (∀ (avail : SessionRec) (units : Option (List UnitQuantity))
          (pps : List PickupPoint),
          derivedStatus avail ≠ some "AVAILABLE" → derivedStatus avail ≠ some "FREESALE" →
          processSession avail units pps = none)
      ∧ (∀ (avail : SessionRec) (units : Option (List UnitQuantity))
          (pps : List PickupPoint) (r : SessionRec),
          processSession avail units pps = some r →
          (r.status = some "AVAILABLE" ∨ r.status = some "FREESALE")
            ∧ strTruthy r.startTimeLocal)
      ∧ (∀ (sessions : List SessionRec) (units : Option (List UnitQuantity))
          (pps : List PickupPoint) (r : SessionRec),
          r ∈ processProductAvailability sessions units pps →
          (r.status = some "AVAILABLE" ∨ r.status = some "FREESALE")
            ∧ strTruthy r.startTimeLocal)
      ∧ (∀ (root : SessionRec) (args : KeyArgs),
          strOr root.status root.availabilityStatus = some "SOLD_OUT" →
          keyResolver root args = none)
      ∧ (∀ (root : SessionRec) (args : KeyArgs),
          ¬ strTruthy (strOr (strOr root.startTimeLocal root.startTime) root.start) →
          keyResolver root args = none) := by
  have key : ∀ (avail : SessionRec) (units : Option (List UnitQuantity))
      (pps : List PickupPoint) (r : SessionRec),
      processSession avail units pps = some r →
      (r.status = some "AVAILABLE" ∨ r.status = some "FREESALE")
        ∧ strTruthy r.startTimeLocal := by
    intro avail units pps r h
    unfold processSession at h
    simp at h
    obtain ⟨⟨hstart, _⟩, himp, hrec⟩ := h
    subst hrec
    refine ⟨?_, hstart⟩
    by_cases hA : derivedStatus avail = some "AVAILABLE"
    · exact Or.inl hA
    · exact Or.inr (himp hA)
  refine ⟨?_, ?_, key, ?_, ?_, ?_⟩
  · intro avail units pps h
    unfold processSession
    simp [h]
  · intro avail units pps h1 h2
    unfold processSession
    by_cases hs : (¬ strTruthy (derivedStart avail) ∨ ¬ strTruthy (derivedStatus avail))
    · rw [if_pos hs]
    · rw [if_neg hs, if_pos ⟨h1, h2⟩]
  · intro sessions units pps r h
    unfold processProductAvailability at h
    simp only [List.mem_filterMap, List.mem_map, id_eq] at h
    obtain ⟨x, ⟨a, _, rfl⟩, hx⟩ := h
    exact key a units pps r hx
  · intro root args h
    unfold keyResolver
    by_cases hj : strTruthy args.jwtKey
    · simp [hj, h]
    · simp [hj]
  · intro root args h
    unfold keyResolver
    by_cases hj : strTruthy args.jwtKey
    · by_cases hs : (strOr root.status root.availabilityStatus ≠ some "AVAILABLE"
          ∧ strOr root.status root.availabilityStatus ≠ some "FREESALE")
      · simp [hj, hs]
      · simp [hj, hs, h]
    · simp [hj]

/-- Witness for C4 at concrete inputs: a SOLD_OUT session with a present
start time is dropped and minted no key, and a session missing its start
time is dropped. -/
theorem unsellable_session_exclusion_witness :
    processSession { status := some "SOLD_OUT", startTimeLocal := some "2026-03-15T18:00:00" }
        none [] = none
      ∧ keyResolver { status := some "SOLD_OUT", startTimeLocal := some "2026-03-15T18:00:00" }
          { jwtKey := some "topsecret" } = none
      ∧ processSession { status := some "AVAILABLE" } none [] = none := by
  refine ⟨?_, ?_, ?_⟩
  · exact unsellable_session_exclusion.2.1
      { status := some "SOLD_OUT", startTimeLocal := some "2026-03-15T18:00:00" } none []
      (by decide) (by decide)
  · exact unsellable_session_exclusion.2.2.2.2.1
      { status := some "SOLD_OUT", startTimeLocal := some "2026-03-15T18:00:00" }
      { jwtKey := some "topsecret" } (by decide)
  · exact unsellable_session_exclusion.1 { status := some "AVAILABLE" } none [] (by decide)

/-- C10 — Implicit status inference: when none of `status`,
`availabilityStatus` and `availability.status` is truthy, the derived
status is AVAILABLE exactly when the normalized seat count is positive;
with a non-positive seat count the status stays unset and the session is
dropped, and any session that survives processing carries status
AVAILABLE. -/
theorem implicit_status_inference :
    ∀ avail : SessionRec,
      ¬ strTruthy avail.status → ¬ strTruthy avail.availabilityStatus →
      ¬ strTruthy (avail.availability.bind NestedAvailability.status) →
      (derivedStatus avail
          = if calculateSeatsAvailable (some avail) > 0 then some "AVAILABLE" else none)
        ∧ (calculateSeatsAvailable (some avail) ≤ 0 →
            ∀ (units : Option (List UnitQuantity)) (pps : List PickupPoint),
              processSession avail units pps = none)
        ∧ (∀ (units : Option (List UnitQuantity)) (pps : List PickupPoint)
            (r : SessionRec),
            processSession avail units pps = some r → r.status = some "AVAILABLE") := by
  intro avail h1 h2 h3
  have hstat : derivedStatus avail
      = if calculateSeatsAvailable (some avail) > 0 then some "AVAILABLE" else none := by
    unfold derivedStatus
    have : strTruthy (strOr (strOr avail.status avail.availabilityStatus)
        (avail.availability.bind NestedAvailability.status)) = false := by
      simp [strTruthy_strOr]
      exact ⟨⟨Bool.eq_false_iff.mpr h1, Bool.eq_false_iff.mpr h2⟩, Bool.eq_false_iff.mpr h3⟩
    simp [this]
  refine ⟨hstat, ?_, ?_⟩
  · intro hseats units pps
    unfold processSession
    have : derivedStatus avail = none := by
      rw [hstat, if_neg (by omega)]
    simp [this, strTruthy]
  · intro units pps r h
    unfold processSession at h
    simp at h
    obtain ⟨⟨_, hstatus⟩, _, hrec⟩ := h
    subst hrec
    show derivedStatus avail = some "AVAILABLE"
    by_cases hpos : calculateSeatsAvailable (some avail) > 0
    · rw [hstat, if_pos hpos]
    · rw [hstat, if_neg hpos] at hstatus
      simp [strTruthy] at hstatus

/-- Witness for C10 at concrete records: six free seats and no status
field infer AVAILABLE; zero seats and no status leave the status unset
and the session dropped. -/
theorem implicit_status_inference_witness :
    derivedStatus { seatsAvailable := some (.num 6), startTimeLocal := some "s" }
        = some "AVAILABLE"
      ∧ processSession { seatsAvailable := some (.num 0), startTimeLocal := some "s" }
          none [] = none := by
  constructor
  · have := implicit_status_inference
      { seatsAvailable := some (.num 6), startTimeLocal := some "s" }
      (by decide) (by decide) (by decide)
    rw [this.1]
    rfl
  · exact (implicit_status_inference
      { seatsAvailable := some (.num 0), startTimeLocal := some "s" }
      (by decide) (by decide) (by decide)).2.1 (by decide) none []

/-- C8 — Signing-secret precondition asymmetry: `searchAvailability`
fails with the configuration error before touching any upstream response
whenever the signing secret is falsy (the conclusion holds for arbitrary
upstream responses, which the error cannot depend on);
`availabilityCalendar` performs no such check and succeeds without a
secret on any valid payload; and key minting returns null when the
secret is absent, so calendar sessions carry no key. -/
theorem signing_secret_asymmetry :
    (∀ (p : Plugin) (endpoint : EndpointInput) (productIds optionIds : List String)
        (units : List (Option (List UnitQuantity))) (responses : List (Payload SessionRec))
        (pickups : List (List PickupPoint)),
        ¬ strTruthy p.jwtKey →
        searchAvailability p endpoint productIds optionIds units responses pickups
          = .error (.assertFailed "JWT secret should be set"))
      ∧ (∀ (p : Plugin) (productIds optionIds : List String)
          (units : List (Option (List UnitQuantity))) (responses : List (Payload SessionRec))
          (pickups : List (List PickupPoint)),
          productIds.length = optionIds.length → optionIds.length = units.length →
          productIds.all (fun s => s != "") = true →
          optionIds.all (fun s => s != "") = true →
          ∃ out, availabilityCalendar p .undef productIds optionIds units responses pickups
            = .ok out)
      ∧ (∀ (root : SessionRec) (args : KeyArgs),
          ¬ strTruthy args.jwtKey → keyResolver root args = none) := by
  refine ⟨?_, ?_, ?_⟩
  · intro p endpoint productIds optionIds units responses pickups h
    unfold searchAvailability
    rw [if_pos h]
  · intro p productIds optionIds units responses pickups h1 h2 h3 h4
    have hcal : availabilityCalendar p .undef productIds optionIds units responses pickups
        = .ok ((((responses.map extractAvailabilityData).zip (units.zip pickups)).map fun x =>
            processProductAvailability x.1 x.2.1 x.2.2).filter fun avails => avails != []) := by
      unfold availabilityCalendar availabilityBody
      rw [if_neg (by simp [h1]), if_neg (by simp [h2]), if_neg (by simp [h3]),
        if_neg (by simp [h4])]
      rfl
    exact ⟨_, hcal⟩
  · intro root args h
    unfold keyResolver
    rw [if_pos h]

/-- Witness for C8 at concrete inputs: with no secret configured,
`searchAvailability` raises the configuration error,
`availabilityCalendar` succeeds on the same (valid, empty) payload, and
the key resolver mints no key. -/
theorem signing_secret_asymmetry_witness :
    searchAvailability {} .undef [] [] [] [] []
        = .error (.assertFailed "JWT secret should be set")
      ∧ (∃ out, availabilityCalendar {} .undef [] [] [] [] [] = .ok out)
      ∧ keyResolver { status := some "AVAILABLE", startTimeLocal := some "s" } {} = none := by
  refine ⟨?_, ?_, ?_⟩
  · exact signing_secret_asymmetry.1 {} .undef [] [] [] [] [] (by decide)
  · exact signing_secret_asymmetry.2.1 {} [] [] [] [] [] rfl rfl rfl rfl
  · exact signing_secret_asymmetry.2.2
      { status := some "AVAILABLE", startTimeLocal := some "s" } {} (by decide)

/-- C5 — createBooking fail-fast validation: a missing availability key,
a missing holder name, and a missing holder surname each make
`createBooking` return an error (so no upstream booking request value is
ever produced); in the missing-surname case the message contains
"surname is required". -/
theorem create_booking_fail_fast :
    (∀ (p : Plugin) (rid : Option String) (ep : EndpointInput) (payload : CBPayload),
        payload.availabilityKey = none →
        createBooking p rid ep payload
          = .error (.assertFailed "an availability code is required !"))
      ∧ (∀ (p : Plugin) (rid : Option String) (ep : EndpointInput) (payload : CBPayload),
          payload.availabilityKey.isSome →
          ¬ strTruthy (payload.holder.bind Holder.name) →
          createBooking p rid ep payload
            = .error (.assertFailed "a holder\x27s first name is required"))
      ∧ (∀ (p : Plugin) (rid : Option String) (ep : EndpointInput) (payload : CBPayload),
          payload.availabilityKey.isSome →
          strTruthy (payload.holder.bind Holder.name) →
          ¬ strTruthy (payload.holder.bind Holder.surname) →
          ∃ msg, createBooking p rid ep payload = .error (.assertFailed msg)
            ∧ ∃ pre post, msg = pre ++ "surname is required" ++ post) := by
  refine ⟨?_, ?_, ?_⟩
  · intro p rid ep payload h
    unfold createBooking
    rw [if_pos (by simp [h])]
  · intro p rid ep payload h1 h2
    unfold createBooking
    rw [if_neg (by simp [Option.isNone_iff_eq_none, Option.ne_none_iff_isSome.mpr h1]),
      if_pos h2]
  · intro p rid ep payload h1 h2 h3
    refine ⟨"a holder\x27s surname is required", ?_, "a holder\x27s ", "", by decide⟩
    unfold createBooking
    rw [if_neg (by simp [Option.isNone_iff_eq_none, Option.ne_none_iff_isSome.mpr h1]),
      if_neg (by simp [h2]), if_pos h3]

/-- Witness for C5 at concrete payloads: each missing input produces its
error, and the missing-surname message contains "surname is required". -/
theorem create_booking_fail_fast_witness :
    createBooking {} none .undef {}
        = .error (.assertFailed "an availability code is required !")
      ∧ createBooking {} none .undef
          { availabilityKey := some (jwtSign {} "k"), holder := some {} }
          = .error (.assertFailed "a holder\x27s first name is required")
      ∧ (∃ msg, createBooking {} none .undef
            { availabilityKey := some (jwtSign {} "k")
              holder := some { name := some "John" } }
            = .error (.assertFailed msg)
          ∧ ∃ pre post, msg = pre ++ "surname is required" ++ post) := by
  refine ⟨?_, ?_, ?_⟩
  · exact create_booking_fail_fast.1 {} none .undef {} rfl
  · exact create_booking_fail_fast.2.1 {} none .undef
      { availabilityKey := some (jwtSign {} "k"), holder := some {} } rfl (by decide)
  · exact create_booking_fail_fast.2.2 {} none .undef
      { availabilityKey := some (jwtSign {} "k"), holder := some { name := some "John" } }
      rfl (by decide) (by decide)

/-- C2 — Booking-search failure classification: with a booking identifier
the three strategies are merged and deduplicated; an empty merged result
together with at least one non-"not found" failure makes the operation
throw the search-failed error; a nonempty merged result is returned
without raising; and the "No order found" sentinel (error code 24 on a
thrown error, or a resolved body whose `requestStatus.success` is falsy)
counts as no result and never sets the error flag. -/
theorem booking_search_failure_classification :
    (∀ o1 o2 o3 : StrategyOutcome, mergedBookings o1 o2 o3 = [] →
        hadNonNotFoundError o1 o2 o3 = true →
        searchBookingById o1 o2 o3 = .error "Search booking failed due to API errors")
      ∧ (∀ o1 o2 o3 : StrategyOutcome, mergedBookings o1 o2 o3 ≠ [] →
          searchBookingById o1 o2 o3 = .ok (mergedBookings o1 o2 o3))
      ∧ searchByUrl (.thrown (some "24")) = (none, false)
      ∧ (∀ (o : BRespObj) (rs : RequestStatus), o.requestStatus = some rs →
          rs.success.truthy = false →
          searchByUrl (.resp (.obj o)) = (none, false)) := by
  refine ⟨?_, ?_, rfl, ?_⟩
  · intro o1 o2 o3 h1 h2
    unfold searchBookingById
    rw [if_pos ⟨by simp [h1], h2⟩]
  · intro o1 o2 o3 h
    unfold searchBookingById
    rw [if_neg fun hc => h (List.isEmpty_iff.mp hc.1)]
  · intro o rs h1 h2
    simp [searchByUrl, h1, h2]

/-- Witness for C2 at concrete strategy outcomes: one network error plus
two not-found sentinels and no results throw the search-failed error;
the same with one strategy returning a booking succeeds with that
booking. -/
theorem booking_search_failure_classification_witness :
    searchBookingById (.thrown none) (.thrown (some "24")) (.thrown (some "24"))
        = .error "Search booking failed due to API errors"
      ∧ searchBookingById (.thrown none) (.thrown (some "24"))
          (.resp (.obj { bookings := some [{ orderNumber := some "R4DLYBR" }] }))
          = .ok [{ orderNumber := some "R4DLYBR" }] := by
  constructor
  · exact booking_search_failure_classification.1
      (.thrown none) (.thrown (some "24")) (.thrown (some "24")) (by decide) (by decide)
  · have := booking_search_failure_classification.2.1
      (.thrown none) (.thrown (some "24"))
      (.resp (.obj { bookings := some [{ orderNumber := some "R4DLYBR" }] }))
      (by decide)
    rw [this]
    rfl

/-- C1 — Availability-key round trip: for any sellable session (resolved
status AVAILABLE or FREESALE, truthy start time) and any signing secret,
the minted key verifies under the same secret and decodes to a payload
whose total amount is the spec-side sum over the requested units (matched
case-insensitively to a price option, unmatched units contributing zero)
and which carries exactly one item; and at the spec's concrete example
(units adults×2 against price option adults at 150) the decoded payload
has totalAmount 300 and the one item's quantities are
`[{optionLabel: "Adult", value: 2}]`, which `createBooking` turns into
the same quantities and a 300 payment. -/
theorem availability_key_round_trip :
    (∀ (root : SessionRec) (args : KeyArgs) (k : String),
        args.jwtKey = some k → k ≠ "" →
        (strOr root.status root.availabilityStatus = some "AVAILABLE"
          ∨ strOr root.status root.availabilityStatus = some "FREESALE") →
        strTruthy (strOr (strOr root.startTimeLocal root.startTime) root.start) →
        ∃ payload : KeyPayload,
          keyResolver root args = some (jwtSign payload k)
            ∧ jwtVerify (jwtSign payload k) (some k) = .ok payload
            ∧ payload.totalAmount
                = .num (specTotalAmount (args.unitsWithQuantity.getD [])
                    (rootPriceOptions root))
            ∧ (payload.items.getD []).length = 1)
      ∧ (∃ tok : SignedToken,
          keyResolver sampleRoot sampleArgs = some tok
            ∧ jwtVerify tok (some "topsecret")
                = .ok { items := some [{ productCode := some "120"
                                         startTimeLocal := some "2026-03-15T18:00:00"
                                         quantities := some [{ optionLabel := some "Adult"
                                                               value := some 2 }] }]
                        totalAmount := .num 300 }
            ∧ (createBooking { jwtKey := some "topsecret" } none .undef
                  { availabilityKey := some tok
                    holder := some { name := some "John", surname := some "Doe" } }).map
                  (fun req => (req.items.map ItemReq.quantities,
                    req.payments.map PaymentReq.amount))
                = .ok ([[{ optionLabel := some "Adult", value := 2 }]], [300])) := by
  constructor
  · intro root args k hk hk0 hstatus hstart
    unfold keyResolver
    rw [hk]
    rw [if_neg (by simp [strTruthy, hk0])]
    rw [if_neg (by
      intro hc
      cases hstatus with
      | inl h => exact hc.1 h
      | inr h => exact hc.2 h)]
    rw [if_neg (by simp [hstart])]
    refine ⟨_, rfl, ?_, ?_, rfl⟩
    · unfold jwtVerify jwtSign
      simp
    · simp only []
      rw [keyTotalAmount_eq_spec]
  · refine ⟨_, rfl, ?_, ?_⟩
    · rfl
    · rfl

/-- Witness for C1: the general round-trip statement applied at the
spec's concrete example. -/
theorem availability_key_round_trip_witness :
    ∃ payload : KeyPayload,
      keyResolver sampleRoot sampleArgs = some (jwtSign payload "topsecret")
        ∧ jwtVerify (jwtSign payload "topsecret") (some "topsecret") = .ok payload
        ∧ payload.totalAmount
            = .num (specTotalAmount (sampleArgs.unitsWithQuantity.getD [])
                (rootPriceOptions sampleRoot))
        ∧ (payload.items.getD []).length = 1 :=
  availability_key_round_trip.1 sampleRoot sampleArgs "topsecret" rfl (by decide)
    (Or.inl (by decide)) (by decide)

end Rezdy
